import Mathlib

/-!
  Verification development for the proxy data plane of this repository.

  The repository contains the integration-test harness
  (`test/integration/integration.cc`) that pins the wire-level behavior of the
  request/response proxying engine, and one configuration translator
  (`source/common/config/lds_json.cc`).  The engine itself (codec, router,
  retry state machine) is described by the design document; here it is
  modelled from that document, with the test expectations under
  `test/integration` fixing the concrete wire bytes.  The port registry of
  `BaseIntegrationTest` and `LdsJson::translateListener` are embedded
  directly from their sources.
-/

namespace Envoy

/-- The two supported protocol families: the single-stream protocol
(HTTP/1.1) and the multiplexed protocol (HTTP/2), mirroring
`Http::CodecClient::Type` used throughout `integration.cc`. -/
inductive CodecType where
  | http1
  | http2
deriving DecidableEq, Repr

/-- Header or trailer mapping: ordered list of name/value pairs, as in
`Http::TestHeaderMapImpl` initializer lists in `integration.cc`. -/
abbrev HeaderMap := List (String × String)

/-! ## Codec request classification

Modelled from the spec, section 4.1 (Codec): parsing of the request start
line, protocol-version checking, content-length validation and the
header-size ceiling.  The concrete responses are pinned by
`testBadFirstline`, `testLowVersion`, `testHttp10Request`,
`testInvalidContentLength`, `testMultipleContentLengths` and
`testOverlyLongHeaders` in `test/integration/integration.cc`. -/

/-- Modelled from the spec: the portion of a parsed wire request that the
codec validates before handing the stream to the Router.  `startLineOk`
records whether the method/path/version tokens parsed; `versionMajor` and
`versionMinor` the protocol version of the start line; `contentLengths`
every content-length value carried by the header block (several distinct
values arise from repeated headers or comma-separated lists such as
`content-length: 3,2`); `headerBlockSize` the total size of the header
block in bytes. -/
structure RawRequest where
  startLineOk : Bool
  versionMajor : Nat
  versionMinor : Nat
  contentLengths : List Int
  headerBlockSize : Nat
deriving DecidableEq, Repr

/-- Modelled from the spec: a single canonical content-length (or none) is
acceptable; a negative value, or more than one distinct value, is a framing
error. -/
def contentLengthsValid : List Int → Bool
  | [] => true
  | v :: rest => decide (0 ≤ v) && rest.all fun w => decide (w = v)

/-- Modelled from the spec: how the codec disposes of a request before the
Router sees it. -/
inductive RequestClass where
  | badRequest
  | entityTooLarge
  | upgradeRequired
  | proxied
deriving DecidableEq, Repr

/-- Modelled from the spec: codec request validation (section 4.1).  Missing
from src: the codec implementation; only its integration tests are present.
A header block over the configured ceiling is a distinct "entity too large"
error; an unparseable start line, or a protocol version below the minimum
supported (HTTP/1.0 is the oldest parseable version, so a `0.x` version is
malformed), or invalid content-length framing, each fail as bad request;
a request on the legacy minor version `1.0` yields "upgrade required" when
the listener mandates a newer version; anything else is proxied. -/
def classifyRequest (headerSizeLimit : Nat) (mandateNewerVersion : Bool)
    (r : RawRequest) : RequestClass :=
  if headerSizeLimit < r.headerBlockSize then .entityTooLarge
  else if !r.startLineOk then .badRequest
  else if r.versionMajor = 0 then .badRequest
  else if !contentLengthsValid r.contentLengths then .badRequest
  else if r.versionMajor = 1 && r.versionMinor = 0 && mandateNewerVersion then
    .upgradeRequired
  else .proxied

/-- The fixed minimal bad-request response of the single-stream protocol,
byte for byte as asserted by `testBadFirstline` (integration.cc:862). -/
def badRequestBytes : String :=
  "HTTP/1.1 400 Bad Request\r\ncontent-length: 0\r\nconnection: close\r\n\r\n"

/-- Start of the upgrade-required response of the single-stream protocol,
as asserted by `testHttp10Request` (integration.cc:895). -/
def upgradeRequiredStart : String := "HTTP/1.1 426 Upgrade Required\r\n"

/-- What the downstream client observes when the codec rejects a request:
either a synthesized minimal response (with its status code, the raw bytes
on the single-stream protocol, and whether the connection is closed), or a
stream reset on the multiplexed protocol. -/
inductive CodecErrorObservation where
  | response (status : Nat) (bytes : String) (connectionClosed : Bool)
  | streamReset
deriving DecidableEq, Repr

/-- Modelled from the spec: how a codec-level rejection surfaces to the
downstream client on each protocol family (section 4.1 and the wire
contract of section 6).  Bad-request framing errors: error response and
connection close for the single-stream protocol, stream reset for the
multiplexed protocol (`testInvalidContentLength` asserts a 400 plus
disconnect under HTTP/1 and a remote stream reset under HTTP/2).  The
"entity too large" rejection responds with status 431 and terminates the
connection on both families (`testOverlyLongHeaders`).  The
upgrade-required rejection responds with status 426. -/
def codecErrorSurface (proto : CodecType) : RequestClass → Option CodecErrorObservation
  | .proxied => none
  | .badRequest =>
    match proto with
    | .http1 => some (.response 400 badRequestBytes true)
    | .http2 => some .streamReset
  | .entityTooLarge =>
    some (.response 431 ("HTTP/1.1 431 Request Header Fields Too Large\r\n") true)
  | .upgradeRequired => some (.response 426 upgradeRequiredStart true)

/-- Test bodies of a given size: `std::string(body_size, 'a')` as built by
`IntegrationCodecClient::makeRequestWithBody` and
`IntegrationCodecClient::sendData` (integration.cc:141, 154). -/
def mkBody (n : Nat) : String := String.mk (List.replicate n 'a')

/-! ## Router + retry state machine

Modelled from the spec, section 4.3, with concrete scenarios pinned by
`testRouterRequestAndResponseWithBody`, `testRetry`, `testGrpcRetry`,
`testRouterUpstreamDisconnectBeforeRequestComplete`,
`testRouterUpstreamDisconnectBeforeResponseComplete` and `testTrailers`
in `test/integration/integration.cc`. -/

/-- The downstream request as the Router buffers it for replay: header map,
request body, optional trailers, and whether the client has signalled
end-of-stream (in `testRouterUpstreamDisconnectBeforeRequestComplete` the
client starts the request without finishing it, so `endStream` is false). -/
structure DownstreamRequest where
  headers : HeaderMap
  body : String
  trailers : Option HeaderMap
  endStream : Bool
deriving DecidableEq, Repr

/-- The outcome the environment scripts for one upstream attempt: the pool
fails to yield a connection, the upstream resets/disconnects after the
request was sent but before response headers, or the upstream answers with
response headers (status, optional grpc-status trailer code, body,
optional trailers) — where `disconnectAfter = some k` means the upstream
disconnects after flushing only the first `k` body bytes. -/
inductive AttemptOutcome where
  | connectFailure
  | resetBeforeHeaders
  | response (status : Nat) (grpcStatus : Option Nat) (body : String)
      (trailers : Option HeaderMap) (disconnectAfter : Option Nat)
deriving DecidableEq, Repr

/-- Modelled from the spec: retry-trigger policy supplied per route; the
categories exercised by the tests are "5xx" (`x-envoy-retry-on: 5xx`) and
the gRPC "cancelled" status (`x-envoy-retry-grpc-on: cancelled`,
grpc-status code 1). -/
structure RetryPolicy where
  on5xx : Bool
  onGrpcCancelled : Bool
deriving DecidableEq, Repr

/-- Modelled from the spec: whether an upstream response matches the
configured retryable-condition set (any 5xx status, or the gRPC cancelled
status carried in a grpc-status code of 1). -/
def retriableResponse (p : RetryPolicy) (status : Nat) (grpcStatus : Option Nat) : Bool :=
  (p.on5xx && decide (500 ≤ status) && decide (status < 600)) ||
    (p.onGrpcCancelled && grpcStatus == some 1)

/-- Modelled from the spec: trailer forwarding per protocol family —
identity for the multiplexed protocol, an accepted no-op (dropped) for the
protocol without trailer support. -/
def forwardTrailers : CodecType → Option HeaderMap → Option HeaderMap
  | .http2, t => t
  | .http1, _ => none

/-- What one upstream attempt observes of the request it is handed:
request body length, whether the request stream completed, and the request
trailers delivered to it (mirrors `FakeStream::bodyLength`, `complete` and
`trailers` checked by the tests). -/
structure AttemptObservation where
  bodyLength : Nat
  complete : Bool
  trailers : Option HeaderMap
deriving DecidableEq, Repr

/-- Modelled from the spec: the Router replays the entire buffered request
to every attempt that gets a connection, so the attempt observes the full
body once, the trailers as forwarded for the protocol, and completeness
equal to the downstream end-of-stream state. -/
def observeRequest (proto : CodecType) (req : DownstreamRequest) : AttemptObservation :=
  { bodyLength := req.body.length
    complete := req.endStream
    trailers := forwardTrailers proto req.trailers }

/-- The response as observed by the downstream client: a complete proxied
response, an incomplete one retaining the status and the body bytes flushed
before a mid-stream disconnect, or a response synthesized locally by the
Router. -/
inductive DownstreamResponse where
  | complete (status : Nat) (body : String) (trailers : Option HeaderMap)
  | incomplete (status : Nat) (flushedBody : String)
  | synthesized (status : Nat) (body : String)
deriving DecidableEq, Repr

/-- The fixed diagnostic body of the synthesized upstream-unavailable
response, byte for byte as asserted at integration.cc:539. -/
def connectErrorBody : String :=
  "upstream connect error or disconnect/reset before headers"

/-- Modelled from the spec: the Router + retry state machine (section 4.3).
Missing from src: the router implementation; only its integration tests are
present.  `attempts` scripts the outcome of each successive upstream
attempt; `budget` is the remaining policy-defined attempt budget.  A
connect failure or a reset before response headers is retried while budget
remains; an upstream response whose status/grpc code matches the retry
policy is likewise retried before any header reaches the downstream
client.  When no connection could ever be established (or a pre-header
failure has no retry budget left) the Router synthesizes the fixed 503
response.  Once a response is allowed through, an upstream disconnect
mid-body surfaces as an incomplete response retaining the original status
and exactly the flushed bytes — never retried.  Returns the observation
made by each upstream attempt that received the request, paired with the
downstream-visible response. -/
def routerRun (proto : CodecType) (policy : RetryPolicy) (budget : Nat)
    (req : DownstreamRequest) :
    List AttemptOutcome → List AttemptObservation × DownstreamResponse
  | [] => ([], .synthesized 503 connectErrorBody)
  | .connectFailure :: rest =>
    if 0 < budget then routerRun proto policy (budget - 1) req rest
    else ([], .synthesized 503 connectErrorBody)
  | .resetBeforeHeaders :: rest =>
    let ob := observeRequest proto req
    if 0 < budget then
      let r := routerRun proto policy (budget - 1) req rest
      (ob :: r.1, r.2)
    else ([ob], .synthesized 503 connectErrorBody)
  | .response status grpcStatus body trailers disconnectAfter :: rest =>
    let ob := observeRequest proto req
    if retriableResponse policy status grpcStatus && 0 < budget then
      let r := routerRun proto policy (budget - 1) req rest
      (ob :: r.1, r.2)
    else
      match disconnectAfter with
      | none => ([ob], .complete status body (forwardTrailers proto trailers))
      | some k => ([ob], .incomplete status (body.take k))

/-! ## Port registry of BaseIntegrationTest

Embedded from `BaseIntegrationTest::registerPort` and
`BaseIntegrationTest::lookupPort` (integration.cc:305-315): `port_map_` maps
string keys to ports; `registerPort` stores (overwriting any previous
entry for the key); `lookupPort` returns the stored port and hits a
`RELEASE_ASSERT(false)` when the key is absent — modelled as the `none`
result. -/

/-- The `port_map_` member: finite map from names to ports, embedded as a
lookup function (`none` = key absent). -/
def PortMap : Type := String → Option Nat

/-- The empty `port_map_` a fresh `BaseIntegrationTest` starts with. -/
def emptyPortMap : PortMap := fun _ => none

/-- `BaseIntegrationTest::registerPort`: `port_map_[key] = port`. -/
def registerPort (m : PortMap) (key : String) (port : Nat) : PortMap :=
  fun k => if k = key then some port else m k

/-- `BaseIntegrationTest::lookupPort`: returns the entry for `key`;
the `none` case is the `RELEASE_ASSERT(false)` branch in the source. -/
def lookupPort (m : PortMap) (key : String) : Option Nat := m key

/-! ## LdsJson::translateListener

Embedded from `source/common/config/lds_json.cc`. -/

/-- One element of the JSON `filters` array of a listener: its `name`, its
`type` and its `config` object (kept as its JSON text, as the source
serializes it back with `asJsonString`). -/
structure JsonFilter where
  name : String
  type : String
  config : String
deriving DecidableEq, Repr

/-- A JSON listener object that passed `Json::Schema::LISTENER_SCHEMA`
validation.  Optional fields model the `JSON_UTIL_SET_*` macros, which only
set the proto field when the JSON key is present. -/
structure JsonListener where
  address : String
  sslContext : Option String
  filters : List JsonFilter
  useProxyProto : Option Bool
  useOriginalDst : Option Bool
  perConnectionBufferLimitBytes : Option Nat
  name : Option String
  bindToPort : Option Bool
deriving DecidableEq, Repr

/-- A filter message in the output `envoy::api::v2::Listener`: `name`, the
`deprecated_v1.type` field and the translated `config`. -/
structure Filter where
  name : String
  deprecatedV1Type : String
  config : String
deriving DecidableEq, Repr

/-- A filter chain message of the output listener. -/
structure FilterChain where
  tlsContext : Option String
  filters : List Filter
  useProxyProto : Bool
deriving DecidableEq, Repr

/-- The output `envoy::api::v2::Listener` message (the fields
`translateListener` touches). -/
structure Listener where
  address : String
  filterChains : List FilterChain
  useOriginalDst : Bool
  perConnectionBufferLimitBytes : Nat
  name : String
  bindToPortDeprecatedV1 : Bool
deriving DecidableEq, Repr

/-- The `json_config` string built for each filter:
`JsonStringToMessage` input wrapping the filter config in a
`deprecated_v1` envelope (lds_json.cc:31-32). -/
def wrapDeprecatedV1 (cfg : String) : String :=
  "\x7b\"deprecated_v1\": true, \"value\": " ++ cfg ++ "\x7d"

/-- The translation of one element of the JSON `filters` array
(lds_json.cc:26-38): copy `name`, copy `type` into `deprecated_v1`, and
translate `config` through the `deprecated_v1` envelope. -/
def translateFilter (jf : JsonFilter) : Filter :=
  { name := jf.name
    deprecatedV1Type := jf.type
    config := wrapDeprecatedV1 jf.config }

/-- `LdsJson::translateListener` (lds_json.cc:13-47): translates the
address, appends exactly one filter chain via `mutable_filter_chains()->Add()`
carrying the optional TLS context, one translated filter per input filter
in order, and `use_proxy_proto`; then sets the remaining listener fields
when present in the JSON. -/
def translateListener (j : JsonListener) (listener : Listener) : Listener :=
  let filter_chain : FilterChain :=
    { tlsContext := j.sslContext
      filters := j.filters.map translateFilter
      useProxyProto := j.useProxyProto.getD false }
  { listener with
    address := j.address
    filterChains := listener.filterChains ++ [filter_chain]
    useOriginalDst := j.useOriginalDst.getD listener.useOriginalDst
    perConnectionBufferLimitBytes :=
      j.perConnectionBufferLimitBytes.getD listener.perConnectionBufferLimitBytes
    name := j.name.getD listener.name
    bindToPortDeprecatedV1 := j.bindToPort.getD listener.bindToPortDeprecatedV1 }

/-- The request trailers sent by the client in `testTrailers`
(integration.cc:1169). -/
def reqTrailersExample : HeaderMap :=
  [("request1", "trailer1"), ("request2", "trailer2")]

/-- The response trailers sent by the upstream in `testTrailers`
(integration.cc:1170). -/
def respTrailersExample : HeaderMap :=
  [("response1", "trailer1"), ("response2", "trailer2")]

/-! ## Theorems -/

/-- Helper: a body built by `mkBody` has exactly the requested length. -/
theorem mkBody_length (n : Nat) : (mkBody n).length = n := by
  simp [mkBody, String.length]

/-- Helper: forwarding absent trailers is absent on either protocol. -/
theorem forwardTrailers_none (proto : CodecType) : forwardTrailers proto none = none := by
  cases proto <;> rfl

/-- Helper: a 200 response never matches the retryable-condition set when it
carries no grpc-status code. -/
theorem retriableResponse_200_none (policy : RetryPolicy) :
    retriableResponse policy 200 none = false := by
  simp [retriableResponse]

/-- C5 counterexample: on the multiplexed protocol a negative
content-length does not yield the fixed 400 response at all — the stream is
reset, as `testInvalidContentLength` asserts (`RemoteReset`), so the claim
as stated fails for the multiplexed protocol family. -/
theorem http2NegativeContentLengthResets :
    codecErrorSurface .http2 (classifyRequest 65536 false ⟨true, 1, 1, [-1], 100⟩) =
      some .streamReset ∧
    codecErrorSurface .http2 (classifyRequest 65536 false ⟨true, 1, 1, [-1], 100⟩) ≠
      some (.response 400 badRequestBytes true) := by
  constructor
  · rfl
  · decide

/-- C5 (amended): a malformed start line, a negative content-length, or
conflicting content-length values yield, on the single-stream protocol, the
byte-exact fixed bad-request response with the connection closed; on the
multiplexed protocol the stream is reset instead. -/
theorem badFramingSurfaces (limit : Nat) (mandate : Bool) (r : RawRequest)
    (hsize : r.headerBlockSize ≤ limit)
    (hbad : r.startLineOk = false ∨ contentLengthsValid r.contentLengths = false) :
    classifyRequest limit mandate r = .badRequest ∧
    codecErrorSurface .http1 (classifyRequest limit mandate r) =
      some (.response 400 badRequestBytes true) ∧
    codecErrorSurface .http2 (classifyRequest limit mandate r) = some .streamReset := by
  have hclass : classifyRequest limit mandate r = .badRequest := by
    simp only [classifyRequest]
    rw [if_neg (by omega : ¬ limit < r.headerBlockSize)]
    rcases hbad with h | h
    · simp [h]
    · cases hs : r.startLineOk
      · simp
      · by_cases hv : r.versionMajor = 0 <;> simp [hv, h]
  exact ⟨hclass, by rw [hclass]; rfl, by rw [hclass]; rfl⟩

/-- C5 witness: the three bad-framing inputs of the tests — the unparseable
start line of `testBadFirstline`, the `content-length: -1` of
`testInvalidContentLength` and the `content-length: 3,2` of
`testMultipleContentLengths` — each produce the fixed 400 bytes on HTTP/1
and a reset on HTTP/2. -/
theorem badFramingSurfaces_witness :
    (classifyRequest 65536 false ⟨false, 1, 1, [], 5⟩ = .badRequest ∧
      codecErrorSurface .http1 (classifyRequest 65536 false ⟨false, 1, 1, [], 5⟩) =
        some (.response 400 badRequestBytes true) ∧
      codecErrorSurface .http2 (classifyRequest 65536 false ⟨false, 1, 1, [], 5⟩) =
        some .streamReset) ∧
    (classifyRequest 65536 false ⟨true, 1, 1, [-1], 100⟩ = .badRequest ∧
      codecErrorSurface .http1 (classifyRequest 65536 false ⟨true, 1, 1, [-1], 100⟩) =
        some (.response 400 badRequestBytes true) ∧
      codecErrorSurface .http2 (classifyRequest 65536 false ⟨true, 1, 1, [-1], 100⟩) =
        some .streamReset) ∧
    (classifyRequest 65536 false ⟨true, 1, 1, [3, 2], 100⟩ = .badRequest ∧
      codecErrorSurface .http1 (classifyRequest 65536 false ⟨true, 1, 1, [3, 2], 100⟩) =
        some (.response 400 badRequestBytes true) ∧
      codecErrorSurface .http2 (classifyRequest 65536 false ⟨true, 1, 1, [3, 2], 100⟩) =
        some .streamReset) :=
  ⟨badFramingSurfaces 65536 false ⟨false, 1, 1, [], 5⟩ (by decide) (by decide),
   badFramingSurfaces 65536 false ⟨true, 1, 1, [-1], 100⟩ (by decide) (by decide),
   badFramingSurfaces 65536 false ⟨true, 1, 1, [3, 2], 100⟩ (by decide) (by decide)⟩

/-- C6: a header block exceeding the configured ceiling is classified as the
distinct entity-too-large error and surfaces on either protocol family as
the 431 response with the connection terminated — never as the generic
bad-request response. -/
theorem oversizedHeadersSurface (limit : Nat) (mandate : Bool) (r : RawRequest)
    (proto : CodecType) (hsize : limit < r.headerBlockSize) :
    classifyRequest limit mandate r = .entityTooLarge ∧
    codecErrorSurface proto (classifyRequest limit mandate r) =
      some (.response 431 "HTTP/1.1 431 Request Header Fields Too Large\r\n" true) ∧
    codecErrorSurface proto (classifyRequest limit mandate r) ≠
      some (.response 400 badRequestBytes true) := by
  have hclass : classifyRequest limit mandate r = .entityTooLarge := by
    simp [classifyRequest, hsize]
  refine ⟨hclass, by rw [hclass]; rfl, ?_⟩
  rw [hclass]
  simp [codecErrorSurface]

/-- C6 witness: the 60 KiB header block of `testOverlyLongHeaders` against
the configured ceiling, on both protocol families. -/
theorem oversizedHeadersSurface_witness :
    (classifyRequest 49152 false ⟨true, 1, 1, [], 61440⟩ = .entityTooLarge ∧
      codecErrorSurface .http1 (classifyRequest 49152 false ⟨true, 1, 1, [], 61440⟩) =
        some (.response 431 "HTTP/1.1 431 Request Header Fields Too Large\r\n" true) ∧
      codecErrorSurface .http1 (classifyRequest 49152 false ⟨true, 1, 1, [], 61440⟩) ≠
        some (.response 400 badRequestBytes true)) ∧
    (classifyRequest 49152 false ⟨true, 1, 1, [], 61440⟩ = .entityTooLarge ∧
      codecErrorSurface .http2 (classifyRequest 49152 false ⟨true, 1, 1, [], 61440⟩) =
        some (.response 431 "HTTP/1.1 431 Request Header Fields Too Large\r\n" true) ∧
      codecErrorSurface .http2 (classifyRequest 49152 false ⟨true, 1, 1, [], 61440⟩) ≠
        some (.response 400 badRequestBytes true)) :=
  ⟨oversizedHeadersSurface 49152 false ⟨true, 1, 1, [], 61440⟩ .http1 (by decide),
   oversizedHeadersSurface 49152 false ⟨true, 1, 1, [], 61440⟩ .http2 (by decide)⟩

/-- C7 counterexample: the HTTP/0.8 request of `testLowVersion` is rejected
with the fixed 400 bad-request response (integration.cc:880), not with the
upgrade-required status the claim asserts — even on a listener mandating a
newer version. -/
theorem http08RejectedAsBadRequest :
    classifyRequest 65536 true ⟨true, 0, 8, [], 35⟩ = .badRequest ∧
    codecErrorSurface .http1 (classifyRequest 65536 true ⟨true, 0, 8, [], 35⟩) =
      some (.response 400 badRequestBytes true) ∧
    classifyRequest 65536 true ⟨true, 0, 8, [], 35⟩ ≠ .upgradeRequired := by
  decide

/-- C7 (amended): a request whose protocol version is below the minimum
parseable version (a `0.x` version such as HTTP/0.8) is rejected as a
generic bad request; the upgrade-required (426) response is reserved for
well-formed requests on the legacy minor version HTTP/1.0 when the listener
mandates a newer version, as in `testHttp10Request`. -/
theorem versionPolicySurfaces (limit : Nat) (mandate : Bool) (r : RawRequest)
    (hsize : r.headerBlockSize ≤ limit) (hok : r.startLineOk = true) :
    (r.versionMajor = 0 → classifyRequest limit mandate r = .badRequest) ∧
    (r.versionMajor = 1 → r.versionMinor = 0 →
      contentLengthsValid r.contentLengths = true → mandate = true →
      classifyRequest limit mandate r = .upgradeRequired ∧
      codecErrorSurface .http1 (classifyRequest limit mandate r) =
        some (.response 426 upgradeRequiredStart true)) := by
  constructor
  · intro hv
    simp only [classifyRequest]
    rw [if_neg (by omega : ¬ limit < r.headerBlockSize)]
    simp [hok, hv]
  · intro hmaj hmin hcl hman
    have hclass : classifyRequest limit mandate r = .upgradeRequired := by
      simp only [classifyRequest]
      rw [if_neg (by omega : ¬ limit < r.headerBlockSize)]
      simp [hok, hmaj, hmin, hcl, hman]
    exact ⟨hclass, by rw [hclass]; rfl⟩

/-- C7 witness: HTTP/0.8 (as in `testLowVersion`) is a bad request and the
bare HTTP/1.0 request of `testHttp10Request` gets the 426 response. -/
theorem versionPolicySurfaces_witness :
    (classifyRequest 65536 true ⟨true, 0, 8, [], 35⟩ = .badRequest) ∧
    (classifyRequest 65536 true ⟨true, 1, 0, [], 20⟩ = .upgradeRequired ∧
      codecErrorSurface .http1 (classifyRequest 65536 true ⟨true, 1, 0, [], 20⟩) =
        some (.response 426 upgradeRequiredStart true)) :=
  ⟨(versionPolicySurfaces 65536 true ⟨true, 0, 8, [], 35⟩ (by decide) (by decide)).1 rfl,
   (versionPolicySurfaces 65536 true ⟨true, 1, 0, [], 20⟩ (by decide) (by decide)).2
     rfl rfl (by decide) rfl⟩

/-- C1: for a well-formed proxied request with body size N and upstream
response body size M, on either protocol family the complete round trip
leaves the upstream attempt having observed a complete request of body
length exactly N and the downstream client a complete 200 response of body
length exactly M. -/
theorem routerRoundTripBodyLengths (proto : CodecType) (policy : RetryPolicy)
    (budget N M : Nat) (hdrs : HeaderMap) :
    routerRun proto policy budget ⟨hdrs, mkBody N, none, true⟩
        [.response 200 none (mkBody M) none none] =
      ([⟨N, true, none⟩], .complete 200 (mkBody M) none) ∧
    (mkBody M).length = M := by
  refine ⟨?_, mkBody_length M⟩
  simp [routerRun, retriableResponse_200_none, observeRequest, mkBody_length,
    forwardTrailers_none]

/-- C2: with the 5xx retry category configured and budget remaining, a
first upstream attempt that answers 503 (or resets before headers) is
retried: the identical request is reissued, each of the two attempts
observes the complete original body exactly once (observed length N, no
duplication), and the client sees exactly the status, body and trailers
returned by the second attempt. -/
theorem routerRetryReplaysBodyOnce (proto : CodecType) (policy : RetryPolicy)
    (budget N s1 : Nat) (gs1 : Option Nat) (b1 : String) (tr1 : Option HeaderMap)
    (d1 : Option Nat) (s2 : Nat) (gs2 : Option Nat) (b2 : String)
    (tr2 : Option HeaderMap) (hdrs : HeaderMap)
    (hpol : policy.on5xx = true) (hbud : 0 < budget)
    (h5a : 500 ≤ s1) (h5b : s1 < 600)
    (hs2 : retriableResponse policy s2 gs2 = false) :
    routerRun proto policy budget ⟨hdrs, mkBody N, none, true⟩
        [.response s1 gs1 b1 tr1 d1, .response s2 gs2 b2 tr2 none] =
      ([⟨N, true, none⟩, ⟨N, true, none⟩], .complete s2 b2 (forwardTrailers proto tr2)) ∧
    routerRun proto policy budget ⟨hdrs, mkBody N, none, true⟩
        [.resetBeforeHeaders, .response s2 gs2 b2 tr2 none] =
      ([⟨N, true, none⟩, ⟨N, true, none⟩], .complete s2 b2 (forwardTrailers proto tr2)) := by
  have hr1 : retriableResponse policy s1 gs1 = true := by
    simp [retriableResponse, hpol, h5a, h5b]
  constructor <;>
    simp [routerRun, hr1, hs2, hbud, observeRequest, mkBody_length, forwardTrailers_none]

/-- C2 witness: the `testRetry` scenario — 1024-byte body, retry-on 5xx,
first attempt answers 503, second answers 200 with a 512-byte body — on the
multiplexed protocol. -/
theorem routerRetryReplaysBodyOnce_witness :
    routerRun .http2 ⟨true, false⟩ 1 ⟨[], mkBody 1024, none, true⟩
        [.response 503 none "" none none, .response 200 none (mkBody 512) none none] =
      ([⟨1024, true, none⟩, ⟨1024, true, none⟩],
        .complete 200 (mkBody 512) (forwardTrailers .http2 none)) ∧
    routerRun .http2 ⟨true, false⟩ 1 ⟨[], mkBody 1024, none, true⟩
        [.resetBeforeHeaders, .response 200 none (mkBody 512) none none] =
      ([⟨1024, true, none⟩, ⟨1024, true, none⟩],
        .complete 200 (mkBody 512) (forwardTrailers .http2 none)) :=
  routerRetryReplaysBodyOnce .http2 ⟨true, false⟩ 1 1024 503 none "" none none
    200 none (mkBody 512) none [] rfl (by decide) (by decide) (by decide)
    (retriableResponse_200_none ⟨true, false⟩)

/-- C3: when an upstream attempt disconnects/resets before response headers
and no retry budget remains — likewise when no connection could ever be
established — the Router synthesizes a complete service-unavailable (503)
response whose body is exactly the fixed diagnostic text, while the
upstream request (whose downstream side never signalled end-of-stream)
remains incomplete. -/
theorem routerSynthesizesConnectError (proto : CodecType) (policy : RetryPolicy)
    (hdrs : HeaderMap) (body : String) :
    routerRun proto policy 0 ⟨hdrs, body, none, false⟩ [.resetBeforeHeaders] =
      ([observeRequest proto ⟨hdrs, body, none, false⟩],
        .synthesized 503 connectErrorBody) ∧
    routerRun proto policy 0 ⟨hdrs, body, none, false⟩ [.connectFailure] =
      ([], .synthesized 503 connectErrorBody) ∧
    connectErrorBody = "upstream connect error or disconnect/reset before headers" ∧
    (observeRequest proto ⟨hdrs, body, none, false⟩).complete = false := by
  refine ⟨?_, ?_, rfl, rfl⟩ <;> simp [routerRun]

/-- C4: once a response has been allowed through to the downstream client,
an upstream disconnect before the body finishes is never retried: exactly
one attempt is made and the client observes an incomplete response carrying
the original status and exactly the body bytes flushed before the
disconnect — no fabricated or substituted status. -/
theorem routerMidStreamDisconnectNoRetry (proto : CodecType) (policy : RetryPolicy)
    (budget : Nat) (hdrs : HeaderMap) (reqBody : String) (s : Nat) (gs : Option Nat)
    (respBody : String) (tr : Option HeaderMap) (k : Nat)
    (hret : retriableResponse policy s gs = false) :
    routerRun proto policy budget ⟨hdrs, reqBody, none, true⟩
        [.response s gs respBody tr (some k)] =
      ([observeRequest proto ⟨hdrs, reqBody, none, true⟩],
        .incomplete s (respBody.take k)) ∧
    ∀ st bd, DownstreamResponse.incomplete s (respBody.take k) ≠ .synthesized st bd := by
  refine ⟨by simp [routerRun, hret], fun st bd h => by cases h⟩

/-- C4 witness: the `testRouterUpstreamDisconnectBeforeResponseComplete`
scenario — header-only request, upstream sends 200 headers and disconnects
with no body flushed; the client keeps the 200 and the empty partial
body. -/
theorem routerMidStreamDisconnectNoRetry_witness :
    routerRun .http1 ⟨false, false⟩ 0 ⟨[], "", none, true⟩
        [.response 200 none (mkBody 512) none (some 0)] =
      ([observeRequest .http1 ⟨[], "", none, true⟩],
        .incomplete 200 ((mkBody 512).take 0)) ∧
    ∀ st bd, DownstreamResponse.incomplete 200 ((mkBody 512).take 0) ≠ .synthesized st bd :=
  routerMidStreamDisconnectNoRetry .http1 ⟨false, false⟩ 0 [] "" 200 none
    (mkBody 512) none 0 (retriableResponse_200_none ⟨false, false⟩)

/-- C8: over the multiplexed protocol, trailers round-trip as identities in
both directions — the upstream observes exactly the request trailers the
client sent and the client receives exactly the response trailers the
upstream sent — while on the protocol without trailer support forwarding is
a no-op in both directions. -/
theorem trailersRoundTripIdentity (hdrs : HeaderMap) (body : String)
    (reqTr respTr : HeaderMap) (s : Nat) (respBody : String)
    (policy : RetryPolicy) (budget : Nat)
    (hret : retriableResponse policy s none = false) :
    routerRun .http2 policy budget ⟨hdrs, body, some reqTr, true⟩
        [.response s none respBody (some respTr) none] =
      ([⟨body.length, true, some reqTr⟩], .complete s respBody (some respTr)) ∧
    routerRun .http1 policy budget ⟨hdrs, body, some reqTr, true⟩
        [.response s none respBody (some respTr) none] =
      ([⟨body.length, true, none⟩], .complete s respBody none) := by
  constructor <;> simp [routerRun, hret, observeRequest, forwardTrailers]

/-- C8 witness: the `testTrailers` scenario — the request trailers
`request1: trailer1, request2: trailer2` and response trailers
`response1: trailer1, response2: trailer2` round-trip on HTTP/2 and are
dropped on HTTP/1. -/
theorem trailersRoundTripIdentity_witness :
    routerRun .http2 ⟨false, false⟩ 0 ⟨[], mkBody 128, some reqTrailersExample, true⟩
        [.response 200 none (mkBody 256) (some respTrailersExample) none] =
      ([⟨(mkBody 128).length, true, some reqTrailersExample⟩],
        .complete 200 (mkBody 256) (some respTrailersExample)) ∧
    routerRun .http1 ⟨false, false⟩ 0 ⟨[], mkBody 128, some reqTrailersExample, true⟩
        [.response 200 none (mkBody 256) (some respTrailersExample) none] =
      ([⟨(mkBody 128).length, true, none⟩], .complete 200 (mkBody 256) none) :=
  trailersRoundTripIdentity [] (mkBody 128) reqTrailersExample respTrailersExample
    200 (mkBody 256) ⟨false, false⟩ 0 (retriableResponse_200_none ⟨false, false⟩)

/-- C9: `lookupPort` returns exactly the port most recently stored for a
key by `registerPort` — a later registration of the same key overwrites,
one of a different key leaves the lookup unchanged — and for a key never
registered the lookup reaches the `RELEASE_ASSERT` branch (modelled as
`none`), which is unreachable once the key has been registered. -/
theorem lookupPortRegistry (m : PortMap) (key otherKey : String)
    (port otherPort : Nat) (hne : otherKey ≠ key) :
    lookupPort (registerPort m key port) key = some port ∧
    lookupPort (registerPort (registerPort m key otherPort) key port) key = some port ∧
    lookupPort (registerPort m otherKey otherPort) key = lookupPort m key ∧
    lookupPort emptyPortMap key = none := by
  refine ⟨?_, ?_, ?_, rfl⟩ <;> simp [lookupPort, registerPort, Ne.symm hne]

/-- C9 witness: registering `http` at 8080 (after an earlier 1234) and
`admin` at 9901 on the empty map; looking up `http` yields 8080 and the
`admin` registration does not disturb it, while the fresh map has no entry
for `http`. -/
theorem lookupPortRegistry_witness :
    lookupPort (registerPort emptyPortMap "http" 8080) "http" = some 8080 ∧
    lookupPort (registerPort (registerPort emptyPortMap "http" 1234) "http" 8080) "http" =
      some 8080 ∧
    lookupPort (registerPort emptyPortMap "admin" 9901) "http" =
      lookupPort emptyPortMap "http" ∧
    lookupPort emptyPortMap "http" = none :=
  lookupPortRegistry emptyPortMap "http" "admin" 8080 9901 (by decide)

/-- C10: for every schema-valid JSON listener, `translateListener` appends
exactly one filter chain to the output listener, and that chain carries
exactly one filter per element of the input `filters` array, in input
order, each with the name and deprecated-v1 type copied from its JSON
element. -/
theorem translateListenerFilterChain (j : JsonListener) (listener : Listener) :
    (translateListener j listener).filterChains.length =
      listener.filterChains.length + 1 ∧
    ∃ c : FilterChain,
      (translateListener j listener).filterChains = listener.filterChains ++ [c] ∧
      c.filters.length = j.filters.length ∧
      ∀ i : Nat,
        (c.filters[i]?.map Filter.name = (j.filters[i]?).map JsonFilter.name ∧
          c.filters[i]?.map Filter.deprecatedV1Type = (j.filters[i]?).map JsonFilter.type) := by
  refine ⟨by simp [translateListener], ?_⟩
  refine ⟨⟨j.sslContext, j.filters.map translateFilter, j.useProxyProto.getD false⟩,
    by simp [translateListener], by simp, ?_⟩
  intro i
  constructor <;>
    · simp only [List.getElem?_map, Option.map_map]
      cases j.filters[i]? <;> simp [translateFilter]

end Envoy
